import Mathlib

/-!
Shallow embedding of `src/main.py` (a process lifecycle orchestrator for a
Telegram trading bot) and proofs about its startup, readiness, shutdown and
probe-endpoint behaviour.

The embedding follows the source:
* `TradingBot` mirrors the fields of the Python class `TradingBot` that the
  claims touch (`is_ready`, `telegram_handler`, `health_server`).
* The probe endpoints `health_check`, `readiness_check` and `metrics_endpoint`
  are translated directly from their method bodies; external collaborators
  that may raise (`metrics.get_metrics_summary()`, `get_cache_stats()`) are
  passed in as `Except` values.
* `main` and `create_app` are modelled as trace-producing functions over a
  small environment of external outcomes (validation success, preload
  outcome, handler run outcome, whether server teardown raises), following
  the Python control flow statement by statement, including `sys.exit`,
  `try/except/finally` and the background task of `create_app`.
* `mainTrace` covers the whole script path (`python main.py`): the
  module-level statement `app = create_app()` on the last line of the file
  sits outside the `if __name__ == "__main__":` block, so whenever `main()`
  returns normally it still executes — and its `asyncio.create_task` call,
  made with no running event loop (`asyncio.run` has already closed its
  loop), raises an uncaught `RuntimeError`, so the process exits 1.
-/

/-- HTTP response as produced by the aiohttp handlers: a status code and a
plain-text body. -/
structure HttpResponse where
  status : Nat
  text : String
  deriving DecidableEq, Repr

/-- The fields of the Python class `TradingBot` (from `__init__`) that the
probe endpoints and the lifecycle logic read or write.  `telegram_handler`
and `health_server` start as `None` (here `none`); `is_ready` starts `False`.
The handler and server objects are opaque, so they are modelled as `Unit`
payloads: only their presence (Python truthiness) matters. -/
structure TradingBot where
  telegram_handler : Option Unit
  health_server : Option Unit
  is_ready : Bool
  deriving DecidableEq, Repr

/-- `TradingBot.__init__`: `telegram_handler = None`, `health_server = None`,
`is_ready = False`. -/
def TradingBot.init : TradingBot :=
  { telegram_handler := none, health_server := none, is_ready := false }

/-- `TradingBot.health_check`: `return web.Response(text="OK", status=200)` —
unconditionally, for every state of the bot. -/
def TradingBot.health_check (_ : TradingBot) : HttpResponse :=
  { status := 200, text := "OK" }

/-- `TradingBot.readiness_check`:
`if self.is_ready and self.telegram_handler:` return 200 "Ready"
else return 503 "Not Ready".  Python truthiness of the handler object is
`Option.isSome`. -/
def TradingBot.readiness_check (s : TradingBot) : HttpResponse :=
  if s.is_ready && s.telegram_handler.isSome then
    { status := 200, text := "Ready" }
  else
    { status := 503, text := "Not Ready" }

/-- JSON response of the metrics endpoint: a status code and a flat view of
the JSON object as key/value pairs (values rendered as strings). -/
structure MetricsResponse where
  status : Nat
  body : List (String × String)
  deriving DecidableEq, Repr

/-- Whether an external call succeeded (`Except.ok`). -/
def exceptOk {α : Type} : Except String α → Bool
  | .ok _ => true
  | .error _ => false

/-- `TradingBot.metrics_endpoint`: inside `try`, builds `bot_metrics`
(uptime from the captured `start_time`, `ready`, `telegram_handler_status`),
calls `metrics.get_metrics_summary()` and `get_cache_stats()` (external,
may raise — passed here as `Except` values), merges them and returns 200
JSON; `except Exception` returns 500 `{"error": "Metrics unavailable"}`
(body modelled as the key/value pair). -/
def TradingBot.metrics_endpoint (s : TradingBot) (now start_time : Nat)
    (prometheus_metrics : Except String (List (String × String)))
    (cache_stats : Except String String) : MetricsResponse :=
  match prometheus_metrics, cache_stats with
  | .ok pm, .ok cs =>
      { status := 200
        body :=
          [("uptime_seconds", toString (now - start_time)),
           ("ready", toString s.is_ready),
           ("telegram_handler_status",
             if s.telegram_handler.isSome then "active" else "inactive")]
          ++ pm ++ [("cache_stats", cs)] }
  | _, _ => { status := 500, body := [("error", "Metrics unavailable")] }

/-- Observable events of the orchestrator, one per relevant statement of
`main()` / `create_app()` in the source.  Two constructors exist to state
absences: `cancelTask` (the orchestrator source performs no task
cancellation) and `installSignalHandlers` (`setup_signal_handlers` is
defined but never called anywhere in the program) are never emitted by any
trace.  `runtimeError` records the uncaught `RuntimeError` that
`asyncio.create_task` raises at module level when no event loop is
running. -/
inductive Event where
  | logInfo (msg : String)
  | logWarning (msg : String)
  | logError (msg : String)
  | systemEvent (name : String)
  | securityEvent (name : String)
  | spawnTask (name : String)
  | cancelTask
  | validationDone (ok : Bool)
  | startMetricsServer
  | setupPeriodicCleanup
  | startHealthServer
  | createHandler
  | awaitPreload
  | setReady
  | setReadyStatusMetric
  | runHandler
  | serverCleanup
  | appCreated
  | installSignalHandlers
  | runtimeError
  deriving DecidableEq, Repr

/-- Outcome of the preload task as observed by
`await asyncio.wait_for(preload_task, timeout=30.0)`:
normal completion, `asyncio.TimeoutError`, or a task-level exception. -/
inductive PreloadOutcome where
  | completed
  | timedOut
  | failed
  deriving DecidableEq, Repr

/-- Outcome of `await bot.telegram_handler.run()`: normal return,
`KeyboardInterrupt`, or an `Exception` (crash). -/
inductive RunOutcome where
  | finished
  | keyboardInterrupt
  | crashed
  deriving DecidableEq, Repr

/-- External outcomes a run of `main()` depends on: whether
`validate_environment()` returns True, how the preload wait ends, how the
handler run loop ends, and whether `health_server.cleanup()` raises. -/
structure MainEnv where
  validation_ok : Bool
  preload : PreloadOutcome
  run_result : RunOutcome
  cleanup_raises : Bool
  deriving DecidableEq, Repr

/-- Events of `TradingBot.validate_environment` (logging on each branch,
then the boolean return, recorded as `validationDone`). -/
def validateEvents (ok : Bool) : List Event :=
  if ok then
    [Event.logInfo "Environment validation successful",
     Event.systemEvent "environment_validation",
     Event.validationDone true]
  else
    [Event.logError "Environment validation failed",
     Event.securityEvent "environment_validation_failed",
     Event.validationDone false]

/-- Events of the inner `try/except` around
`await asyncio.wait_for(preload_task, timeout=30.0)`: success logs info,
`asyncio.TimeoutError` logs a warning and continues, any other exception
logs a warning and continues.  No branch re-awaits, retries or cancels. -/
def preloadWaitEvents : PreloadOutcome → List Event
  | .completed =>
      [Event.logInfo "Preloading completed successfully",
       Event.systemEvent "preloading_completed"]
  | .timedOut =>
      [Event.logWarning "Preloading timed out, continuing startup",
       Event.systemEvent "preloading_timeout"]
  | .failed =>
      [Event.logWarning "Preloading failed, continuing startup",
       Event.systemEvent "preloading_failed"]

/-- Events of the `except KeyboardInterrupt` / `except Exception` clauses of
`main()` together with the pending exit status raised so far:
`none` means control reaches `finally` with no `SystemExit` pending (after
the `finally` block, `main` returns normally and the script continues at
the module level), `some 1` means `sys.exit(1)` was called. -/
def runEvents : RunOutcome → List Event × Option Nat
  | .finished => ([], none)
  | .keyboardInterrupt =>
      ([Event.logInfo "Bot stopped by user",
        Event.systemEvent "bot_shutdown_user"], none)
  | .crashed =>
      ([Event.logError "Bot crashed",
        Event.securityEvent "bot_crash"], some 1)

/-- The `finally` block of `main()`:
`if bot.health_server: await bot.health_server.cleanup()` then two log
events, then the final `bot_shutdown_complete` audit event.  There is no
`try/except` inside the block, so if `cleanup()` raises, the remaining
statements of the block do not run and the exception propagates (second
component `true`). -/
def finallyEvents (server_up : Bool) (raises : Bool) : List Event × Bool :=
  if server_up then
    if raises then ([Event.serverCleanup], true)
    else
      ([Event.serverCleanup,
        Event.logInfo "Health server stopped",
        Event.systemEvent "health_server_stopped",
        Event.systemEvent "bot_shutdown_complete"], false)
  else ([Event.systemEvent "bot_shutdown_complete"], false)

/-- Trace and process exit code of one run of the script
(`python main.py`), following the source's control flow:
validation failure calls `sys.exit(1)` (a `SystemExit`, caught by neither
`except` clause, so `finally` runs with no server started and the process
exits 1); on success the preload task is spawned, the metrics and health
servers start, the handler is created, the preload wait resolves, the
readiness flag is set, and the handler runs until it finishes, is
interrupted, or crashes (`sys.exit(1)`); the `finally` block then runs, and
an exception escaping it makes the process exit 1 (unhandled).
When `main()` instead returns normally (handler finished or
`KeyboardInterrupt` caught, teardown clean), execution continues past the
`if __name__ == "__main__":` block to the module-level `app = create_app()`
on the last line: the application object is built (`appCreated`), but its
`asyncio.create_task(init_bot())` runs with no running event loop
(`asyncio.run` has closed its loop) and raises an uncaught `RuntimeError`,
so the process exits 1 — the script path never exits 0.  No trace emits
`installSignalHandlers`: `setup_signal_handlers` is never called, so the
`sys.exit(0)` signal handler is never installed. -/
def mainTrace (env : MainEnv) : List Event × Nat :=
  let pre := [Event.logInfo "Starting AI Trading Bot...",
              Event.systemEvent "bot_startup"]
  if env.validation_ok then
    let startup :=
      pre ++ validateEvents true ++
      [Event.logInfo "Starting performance optimizations...",
       Event.spawnTask "preloader.start_preloading",
       Event.startMetricsServer,
       Event.setupPeriodicCleanup,
       Event.startHealthServer,
       Event.createHandler,
       Event.logInfo "TelegramHandler created successfully",
       Event.systemEvent "telegram_handler_initialized",
       Event.awaitPreload] ++
      preloadWaitEvents env.preload ++
      [Event.setReady,
       Event.setReadyStatusMetric,
       Event.logInfo "Trading bot started successfully",
       Event.systemEvent "bot_startup_complete",
       Event.runHandler]
    let re := runEvents env.run_result
    let fe := finallyEvents true env.cleanup_raises
    if fe.2 then
      (startup ++ re.1 ++ fe.1, 1)
    else
      match re.2 with
      | some c => (startup ++ re.1 ++ fe.1, c)
      | none =>
          (startup ++ re.1 ++ fe.1 ++ [Event.appCreated, Event.runtimeError], 1)
  else
    (pre ++ validateEvents false ++
     [Event.logError "Environment validation failed, exiting...",
      Event.securityEvent "startup_failed"] ++
     (finallyEvents false false).1,
     1)

/-- State updates performed by the statements of the source that the events
stand for: `bot.health_server = await bot.start_health_server()` (line 162),
`bot.telegram_handler = TelegramHandler()` (lines 165/250),
`bot.is_ready = True` (lines 182/251).  Every other statement of the
program leaves these three fields unchanged; in particular no statement
anywhere assigns `is_ready = False` after `__init__`. -/
def applyEvent (s : TradingBot) : Event → TradingBot
  | .startHealthServer => { s with health_server := some () }
  | .createHandler => { s with telegram_handler := some () }
  | .setReady => { s with is_ready := true }
  | _ => s

/-- Events of the background task `init_bot` inside `create_app()`:
validate (failure only logs and returns — no `sys.exit`), start background
services, create the handler, set the readiness flag, and spawn the
handler's run loop.  The whole body is wrapped in `except Exception`, so no
exception escapes and the process never exits from here. -/
def initBotTrace (ok : Bool) : List Event :=
  if ok then
    validateEvents true ++
    [Event.startMetricsServer,
     Event.setupPeriodicCleanup,
     Event.createHandler,
     Event.setReady,
     Event.setReadyStatusMetric,
     Event.logInfo "Bot initialized successfully for web deployment",
     Event.spawnTask "telegram_handler.run"]
  else
    validateEvents false ++ [Event.logError "Environment validation failed"]

/-- Trace of `create_app()` (first call, `app is None`) in the web
deployment path, where an event loop is running so `asyncio.create_task`
succeeds: the web application is created and its four routes registered
(`appCreated`), then `init_bot` is scheduled with `asyncio.create_task` —
so validation runs only inside that already-spawned task; the spawned
task's events follow.  (The same call made at module level after
`asyncio.run` has finished is the `runtimeError` epilogue of
`mainTrace`.) -/
def createAppTrace (ok : Bool) : List Event :=
  [Event.appCreated, Event.spawnTask "init_bot"] ++ initBotTrace ok

/-- Exit status of the `create_app()` path: `init_bot` catches every
`Exception` and `create_app` returns the app in all cases, so no exit code
is ever produced from this path (`none` = the process keeps running). -/
def createAppExit (_ : Bool) : Option Nat := none

/-- The Python signal-handler state: whether `self.health_server` is set,
how many times `health_server.stop()` has been called, and the argument of
each `sys.exit` call made. -/
structure SignalState where
  health_server : Option Unit
  stop_calls : Nat
  exit_calls : List Nat
  deriving DecidableEq, Repr

/-- The closure `signal_handler` registered for SIGINT and SIGTERM in
`TradingBot.setup_signal_handlers`: logs, calls `self.health_server.stop()`
when the server is present, then `sys.exit(0)`.  It sets no flag and
deregisters nothing, so every delivery runs the same body. -/
def signal_handler (s : SignalState) : SignalState :=
  let s1 :=
    match s.health_server with
    | some _ => { s with stop_calls := s.stop_calls + 1 }
    | none => s
  { s1 with exit_calls := s1.exit_calls ++ [0] }

/-- `true` on task-spawn events (`asyncio.create_task`). -/
def isSpawn : Event → Bool
  | .spawnTask _ => true
  | _ => false

/-- `true` exactly on the event recording a successful return of
`validate_environment`. -/
def isValidationOk : Event → Bool
  | .validationDone ok => ok
  | _ => false

/-- `true` on the event of `TelegramHandler()` construction. -/
def isCreateHandler : Event → Bool
  | .createHandler => true
  | _ => false

/-- `true` on the event of `bot.is_ready = True`. -/
def isSetReady : Event → Bool
  | .setReady => true
  | _ => false

/-- `true` on the event of the health/endpoint server being started. -/
def isStartHealthServer : Event → Bool
  | .startHealthServer => true
  | _ => false

/-- `true` on the event of the web application being created with its
routes in `create_app`. -/
def isAppCreated : Event → Bool
  | .appCreated => true
  | _ => false

/-- `true` on the (never emitted by the source) task-cancellation event. -/
def isCancel : Event → Bool
  | .cancelTask => true
  | _ => false

/-- `true` on the event of awaiting the preload task. -/
def isAwaitPreload : Event → Bool
  | .awaitPreload => true
  | _ => false

/-- `allAfter p q tr` scans the trace left to right: it is `false` as soon
as a `q`-event appears strictly before the first `p`-event, and `true` once
the first `p`-event is reached (or the trace ends) — i.e. "no `q` happens
before `p`". -/
def allAfter (p q : Event → Bool) : List Event → Bool
  | [] => true
  | e :: rest =>
      if q e then false
      else if p e then true
      else allAfter p q rest

/-- C1: for every bot state, the readiness endpoint answers either
200 "Ready" or 503 "Not Ready", and it answers 200 "Ready" exactly when the
readiness flag `is_ready` is true and the `telegram_handler` object is
present (Python-truthy); in every other state the answer is therefore
503 "Not Ready". -/
theorem readiness_iff (s : TradingBot) :
    (s.readiness_check = { status := 200, text := "Ready" } ∨
     s.readiness_check = { status := 503, text := "Not Ready" }) ∧
    (s.readiness_check = { status := 200, text := "Ready" } ↔
      s.is_ready = true ∧ s.telegram_handler.isSome = true) := by
  rcases s with ⟨th, hs, ir⟩
  cases ir <;> cases th <;> simp [TradingBot.readiness_check]

/-- C8: the liveness endpoint returns 200 "OK" in every state of the bot —
it reads neither the readiness flag, nor the handler, nor anything else. -/
theorem health_always_ok (s : TradingBot) :
    s.health_check = { status := 200, text := "OK" } := rfl

/-- C6: the metrics endpoint is a total function (no exception ever
propagates): it returns 200 exactly when both external aggregation calls
succeed, in which case the payload contains the keys `uptime_seconds`,
`ready` and `telegram_handler_status`; if any aggregation step fails it
returns 500 with the generic body `{"error": "Metrics unavailable"}`. -/
theorem metrics_recovers (s : TradingBot) (now start_time : Nat)
    (pm : Except String (List (String × String))) (cs : Except String String) :
    ((s.metrics_endpoint now start_time pm cs).status = 200 ∨
     (s.metrics_endpoint now start_time pm cs).status = 500) ∧
    ((s.metrics_endpoint now start_time pm cs).status = 200 ↔
      exceptOk pm = true ∧ exceptOk cs = true) ∧
    ((s.metrics_endpoint now start_time pm cs).status = 200 →
      "uptime_seconds" ∈ (s.metrics_endpoint now start_time pm cs).body.map Prod.fst ∧
      "ready" ∈ (s.metrics_endpoint now start_time pm cs).body.map Prod.fst ∧
      "telegram_handler_status" ∈ (s.metrics_endpoint now start_time pm cs).body.map Prod.fst) ∧
    ((s.metrics_endpoint now start_time pm cs).status = 500 →
      (s.metrics_endpoint now start_time pm cs).body = [("error", "Metrics unavailable")]) := by
  cases pm <;> cases cs <;> simp [TradingBot.metrics_endpoint, exceptOk]

/-- Witness for C6: concrete success and failure requests. -/
theorem metrics_recovers_witness :
    ("ready" ∈ ((TradingBot.init.metrics_endpoint 10 3 (Except.ok []) (Except.ok "c")).body.map Prod.fst)) ∧
    (TradingBot.init.metrics_endpoint 10 3 (Except.error "x") (Except.ok "c")).body
      = [("error", "Metrics unavailable")] :=
  ⟨((metrics_recovers TradingBot.init 10 3 (Except.ok []) (Except.ok "c")).2.2.1 (by rfl)).2.1,
   (metrics_recovers TradingBot.init 10 3 (Except.error "x") (Except.ok "c")).2.2.2 (by rfl)⟩

/-- C10: the readiness flag is monotone — it starts `false` in `__init__`,
and no statement of the program (modelled event by event in `applyEvent`,
whose only `is_ready` write is `setReady`, which writes `true`) ever resets
it to false: once true it stays true under every single event and under any
event sequence. -/
theorem ready_monotone :
    TradingBot.init.is_ready = false ∧
    (∀ (s : TradingBot) (e : Event), s.is_ready = true → (applyEvent s e).is_ready = true) ∧
    (∀ (evs : List Event) (s : TradingBot), s.is_ready = true →
      (evs.foldl applyEvent s).is_ready = true) := by
  refine ⟨rfl, ?_, ?_⟩
  · intro s e h
    cases e <;> simp_all [applyEvent]
  · intro evs
    induction evs with
    | nil => intro s h; simpa using h
    | cons e rest ih =>
        intro s h
        have h1 : (applyEvent s e).is_ready = true := by
          cases e <;> simp_all [applyEvent]
        simpa using ih (applyEvent s e) h1

/-- Witness for C10: a ready state stays ready across a shutdown event. -/
theorem ready_monotone_witness :
    (applyEvent { telegram_handler := none, health_server := none, is_ready := true }
      Event.serverCleanup).is_ready = true :=
  ready_monotone.2.1 _ Event.serverCleanup rfl

/-- C3: in every run of `main()` in which validation succeeds and the preload
wait times out, the trace records the timeout warning and the
`preloading_timeout` audit event exactly once, awaits the preload task
exactly once and spawns it exactly once (no retry), performs no task
cancellation of its own, and still reaches `setReady` (startup is not
blocked).  (The internal cancellation that `asyncio.wait_for` performs on
timeout is library behaviour, not a statement of the orchestrator source.) -/
theorem preload_timeout_nonblocking (env : MainEnv)
    (hv : env.validation_ok = true) (hp : env.preload = PreloadOutcome.timedOut) :
    (mainTrace env).1.countP (fun e => e == Event.systemEvent "preloading_timeout") = 1 ∧
    (mainTrace env).1.countP
      (fun e => e == Event.logWarning "Preloading timed out, continuing startup") = 1 ∧
    (mainTrace env).1.countP isAwaitPreload = 1 ∧
    (mainTrace env).1.countP (fun e => e == Event.spawnTask "preloader.start_preloading") = 1 ∧
    (mainTrace env).1.countP isCancel = 0 ∧
    Event.setReady ∈ (mainTrace env).1 := by
  rcases env with ⟨vo, p, r, c⟩
  simp only at hv hp
  subst hv; subst hp
  cases r <;> cases c <;> decide

/-- Witness for C3: the timeout run with a finished handler and clean
teardown reaches the ready mark. -/
theorem preload_timeout_nonblocking_witness :
    Event.setReady ∈ (mainTrace ⟨true, PreloadOutcome.timedOut, RunOutcome.finished, false⟩).1 :=
  (preload_timeout_nonblocking ⟨true, PreloadOutcome.timedOut, RunOutcome.finished, false⟩
    rfl rfl).2.2.2.2.2

/-- C7 counterexample: in `create_app()` the `init_bot` task is spawned
(`asyncio.create_task(init_bot())`) before configuration validation
completes — validation runs inside that already-spawned task — so the claim
"validation completes before any concurrent task is spawned" is false for
the `create_app` entry path. -/
theorem createApp_spawn_before_validation :
    allAfter isValidationOk isSpawn (createAppTrace true) = false := by decide

/-- C7 (amended): in `main()` all three orderings hold — validation
completes before any task is spawned, the endpoint server starts before the
handler is created, and the readiness flag is set only after handler
creation; in `create_app()` the first ordering fails (see the
counterexample), but the web application is created before the handler and
the readiness flag is set only after handler creation. -/
theorem startup_ordering_amended :
    (∀ env : MainEnv,
      allAfter isValidationOk isSpawn (mainTrace env).1 = true ∧
      allAfter isStartHealthServer isCreateHandler (mainTrace env).1 = true ∧
      allAfter isCreateHandler isSetReady (mainTrace env).1 = true) ∧
    (∀ ok : Bool,
      allAfter isAppCreated isCreateHandler (createAppTrace ok) = true ∧
      allAfter isCreateHandler isSetReady (createAppTrace ok) = true) := by
  constructor
  · intro env
    rcases env with ⟨vo, p, r, c⟩
    cases vo <;> cases p <;> cases r <;> cases c <;> decide
  · intro ok
    cases ok <;> decide

/-- C2 counterexample: with failing validation, the `create_app()` path
creates (and returns) the web application anyway, never creates the
handler, and produces no process exit at all — in particular not exit
code 1. -/
theorem createApp_validation_no_exit :
    createAppExit false = none ∧
    (createAppTrace false).contains Event.appCreated = true ∧
    (createAppTrace false).contains Event.createHandler = false := by decide

/-- C2 (amended): in `main()`, a validation failure starts neither the
endpoint server nor the handler (no run either) and the process exits with
code 1; in `create_app()`, a validation failure (detected inside the
background `init_bot` task) prevents handler creation and the readiness
flag, but the web application is still created and returned and the process
does not exit. -/
theorem validation_failure_amended (env : MainEnv) (h : env.validation_ok = false) :
    (mainTrace env).2 = 1 ∧
    (mainTrace env).1.contains Event.startHealthServer = false ∧
    (mainTrace env).1.contains Event.createHandler = false ∧
    (mainTrace env).1.contains Event.runHandler = false ∧
    (createAppTrace false).contains Event.createHandler = false ∧
    (createAppTrace false).contains Event.setReady = false ∧
    createAppExit false = none := by
  rcases env with ⟨vo, p, r, c⟩
  simp only at h
  subst h
  cases p <;> cases r <;> cases c <;> decide

/-- Witness for C2 (amended): a concrete failing-validation run of `main`. -/
theorem validation_failure_amended_witness :
    (mainTrace ⟨false, PreloadOutcome.completed, RunOutcome.finished, false⟩).2 = 1 :=
  (validation_failure_amended ⟨false, PreloadOutcome.completed, RunOutcome.finished, false⟩
    rfl).1

/-- C5 counterexample: in a run whose awaited server teardown raises, the
final `bot_shutdown_complete` audit event is absent from the trace — the
`finally` block has no per-step exception handling, so the claim that
subsequent cleanup steps still run is false. -/
theorem cleanup_exception_skips_final_audit :
    ((mainTrace ⟨true, PreloadOutcome.completed, RunOutcome.keyboardInterrupt, true⟩).1.contains
      (Event.systemEvent "bot_shutdown_complete")) = false := by decide

/-- C5 (amended): cleanup steps are NOT attempted independently — in every
run that started the server, if `health_server.cleanup()` raises, the
subsequent steps (the `health_server_stopped` event and the final
`bot_shutdown_complete` audit event) are skipped and the process exits 1
from the escaping exception; the final audit event runs exactly when the
teardown does not raise. -/
theorem shutdown_cleanup_amended (env : MainEnv) (h : env.validation_ok = true) :
    (env.cleanup_raises = true →
      (mainTrace env).1.contains (Event.systemEvent "bot_shutdown_complete") = false ∧
      (mainTrace env).1.contains (Event.systemEvent "health_server_stopped") = false ∧
      (mainTrace env).2 = 1) ∧
    (env.cleanup_raises = false →
      (mainTrace env).1.contains (Event.systemEvent "bot_shutdown_complete") = true) := by
  rcases env with ⟨vo, p, r, c⟩
  simp only at h
  subst h
  cases p <;> cases r <;> cases c <;> refine ⟨?_, ?_⟩ <;> intro hc <;> first
    | decide
    | exact absurd hc (by decide)

/-- Witness for C5 (amended): a raising teardown exits 1; a clean teardown
records the final audit event. -/
theorem shutdown_cleanup_amended_witness :
    (mainTrace ⟨true, PreloadOutcome.completed, RunOutcome.finished, true⟩).2 = 1 ∧
    (mainTrace ⟨true, PreloadOutcome.completed, RunOutcome.finished, false⟩).1.contains
      (Event.systemEvent "bot_shutdown_complete") = true :=
  ⟨((shutdown_cleanup_amended ⟨true, PreloadOutcome.completed, RunOutcome.finished, true⟩
      rfl).1 rfl).2.2,
   (shutdown_cleanup_amended ⟨true, PreloadOutcome.completed, RunOutcome.finished, false⟩
      rfl).2 rfl⟩

/-- C4 counterexample: starting from a state with a live server and no stop
calls, two deliveries of the termination signal run the server-stop cleanup
step twice — not exactly once as the claim requires. -/
theorem duplicate_signal_double_stop :
    (signal_handler (signal_handler ⟨some (), 0, []⟩)).stop_calls = 2 := by decide

/-- C4 (amended): the signal handler has no idempotence guard — every
delivery that reaches it with a live server re-runs the stop step and calls
`sys.exit(0)` again, so two deliveries perform the stop step twice; in
practice only the process exit triggered by the first delivery prevents a
second cleanup. -/
theorem signal_handler_not_idempotent (s : SignalState)
    (h : s.health_server.isSome = true) :
    (signal_handler s).stop_calls = s.stop_calls + 1 ∧
    (signal_handler s).exit_calls = s.exit_calls ++ [0] ∧
    (signal_handler (signal_handler s)).stop_calls = s.stop_calls + 2 := by
  rcases s with ⟨hs, sc, ec⟩
  cases hs with
  | none => simp at h
  | some u => simp [signal_handler]

/-- Witness for C4 (amended): two signals on a live-server state with five
prior stop calls yield seven stop calls. -/
theorem signal_handler_not_idempotent_witness :
    (signal_handler (signal_handler ⟨some (), 5, []⟩)).stop_calls = 7 :=
  (signal_handler_not_idempotent ⟨some (), 5, []⟩ rfl).2.2

/-- C9 counterexample: the user-requested-shutdown run (`KeyboardInterrupt`
caught, clean teardown) exits with code 1, not 0 — after `main()` returns,
the module-level `app = create_app()` raises an uncaught `RuntimeError`
from `asyncio.create_task` with no running event loop. -/
theorem keyboard_interrupt_exits_one :
    (mainTrace ⟨true, PreloadOutcome.completed, RunOutcome.keyboardInterrupt, false⟩).2 = 1 ∧
    (mainTrace ⟨true, PreloadOutcome.completed, RunOutcome.keyboardInterrupt, false⟩).1.contains
      Event.runtimeError = true := by decide

/-- C9 (amended): the exit-1 halves of the claim hold (validation failure
and an unrecovered handler crash both exit 1), but the script path never
exits 0 at all: in every run the process exits 1 — on the
`KeyboardInterrupt` and normal-return paths because the module-level
`app = create_app()` after the `if __name__` block raises an uncaught
`RuntimeError` (recorded exactly on those paths), and the `sys.exit(0)`
signal handler can never fire because `setup_signal_handlers` is never
called (no trace contains `installSignalHandlers`). -/
theorem exit_codes_amended (env : MainEnv) :
    (mainTrace env).2 = 1 ∧
    (mainTrace env).1.contains Event.installSignalHandlers = false ∧
    (mainTrace env).1.contains Event.runtimeError =
      (env.validation_ok && !env.cleanup_raises &&
        !(env.run_result == RunOutcome.crashed)) := by
  rcases env with ⟨vo, p, r, c⟩
  cases vo <;> cases p <;> cases r <;> cases c <;> decide
